import Mathlib

/-!
# Verification of the USB-Stack device-side protocol core

A shallow embedding of the parts of `vladyst/USB-Stack` that the verified
properties talk about:

* `USB_Stack/USB/usb.h` — device state constants, control stages,
  endpoint-status bit-fields, the `usb_request_error()` macro;
* `USB_Stack/USB/usb_cdc_acm.c` — the CDC class-request handler
  `cdc_class_request`, the CDC example ISR and serial helpers;
* `USB_Stack/Examples/.../HID_RubberDucky_Example.X/main.c` — ISR.

The core engine `usb.c` is not part of the available sources (only its
declarations in `usb.h` and its callers are); where a property depends on
it, the corresponding definition is modelled from the specification and is
marked `Modelled from the spec:` in its doc string.
-/

namespace USBStack

/-! ## Constants from usb.h -/

/-- `#define STATE_DETACHED 0` (usb.h). -/
def STATE_DETACHED : Nat := 0
/-- `#define STATE_ATTACHED 1` (usb.h). -/
def STATE_ATTACHED : Nat := 1
/-- `#define STATE_POWERED 2` (usb.h). -/
def STATE_POWERED : Nat := 2
/-- `#define STATE_DEFAULT 3` (usb.h). -/
def STATE_DEFAULT : Nat := 3
/-- `#define STATE_ADDRESS 4` (usb.h). -/
def STATE_ADDRESS : Nat := 4
/-- `#define STATE_SUSPENDED 5` (usb.h). -/
def STATE_SUSPENDED : Nat := 5
/-- `#define STATE_CONFIGURED 6` (usb.h). -/
def STATE_CONFIGURED : Nat := 6

/-- The USB STATES block of usb.h lines 42-48, in source order. -/
def usb_state_constants : List Nat :=
  [STATE_DETACHED, STATE_ATTACHED, STATE_POWERED, STATE_DEFAULT,
   STATE_ADDRESS, STATE_SUSPENDED, STATE_CONFIGURED]

/-- Control transfer stages (usb.h). -/
def SETUP_STAGE : Nat := 0
/-- `#define DATA_IN_STAGE 1` (usb.h). -/
def DATA_IN_STAGE : Nat := 1
/-- `#define DATA_OUT_STAGE 2` (usb.h). -/
def DATA_OUT_STAGE : Nat := 2
/-- `#define STATUS_IN_STAGE 3` (usb.h). -/
def STATUS_IN_STAGE : Nat := 3
/-- `#define STATUS_OUT_STAGE 4` (usb.h). -/
def STATUS_OUT_STAGE : Nat := 4

/-- `#define ROM 0` (usb.h). -/
def ROM : Nat := 0
/-- `#define RAM 1` (usb.h). -/
def RAM : Nat := 1

/-! ## Endpoint status (usb_ep_stat_t, usb.h lines 257-263)

The C type packs three one-bit fields; they become `Bool` fields. -/

/-- `usb_ep_stat_t`: `Data_Toggle_Val`, `Halt` and `Last_PPB` bits (usb.h). -/
structure EpStat where
  Data_Toggle_Val : Bool
  Halt : Bool
  Last_PPB : Bool
deriving Repr, DecidableEq

/-! ## C1: length of an IN control transfer

`usb_setup_in_control_transfer(ram_rom, bytes_available, requested_length)`
lives in `usb.c`, which is not among the available sources (usb.h only
declares it). It is modelled from the spec below. -/

/-- The chunk sizes of a DATA_IN stage that repeatedly transmits
`min mps remaining` bytes until `remaining` is exhausted (`mps` is the
EP0 max packet size). -/
def chunks (mps : Nat) : Nat → List Nat
  | 0 => []
  | n + 1 =>
    if h : mps = 0 then []
    else min mps (n + 1) :: chunks mps (n + 1 - min mps (n + 1))
termination_by n => n
decreasing_by
  omega

/-- Modelled from the spec: `usb_setup_in_control_transfer` computes
`n = min bytes_available requested_length` and records whether the
transfer must end short with an extra zero-length packet, namely when
`n` is a non-zero multiple of the max packet size and `n` is less than
the requested length. -/
def usb_setup_in_control_transfer (mps bytes_available requested_length : Nat) :
    Nat × Bool :=
  let n := min bytes_available requested_length
  (n, decide (n % mps = 0 ∧ n ≠ 0 ∧ n < requested_length))

/-- Modelled from the spec: the packet sizes transmitted during the whole
DATA_IN stage: `n = 0` sends a single zero-length packet; otherwise the
data is sent in chunks of at most `mps` bytes, followed by one extra
zero-length packet when the short-termination flag is set. -/
def data_in_packets (mps n : Nat) (short : Bool) : List Nat :=
  if n = 0 then [0]
  else chunks mps n ++ (if short then [0] else [])

/-- The full packet list produced for an IN control transfer set up by
`usb_setup_in_control_transfer`. -/
def in_transfer_packets (mps bytes_available requested_length : Nat) : List Nat :=
  let r := usb_setup_in_control_transfer mps bytes_available requested_length
  data_in_packets mps r.1 r.2

lemma chunks_zero (mps : Nat) : chunks mps 0 = [] := by
  rw [chunks.eq_def]

lemma chunks_succ (mps n : Nat) (hm : mps ≠ 0) :
    chunks mps (n + 1) =
      min mps (n + 1) :: chunks mps (n + 1 - min mps (n + 1)) := by
  rw [chunks.eq_def]
  simp [hm]

/-- Length of the chunk list is the ceiling of `n / mps`. -/
lemma chunks_length (mps : Nat) (hm : 0 < mps) :
    ∀ n, (chunks mps n).length = (n + mps - 1) / mps := by
  intro n
  induction n using Nat.strong_induction_on with
  | _ n ih =>
    cases n with
    | zero =>
      rw [chunks_zero]
      simp only [List.length_nil, Nat.zero_add]
      exact (Nat.div_eq_of_lt (by omega)).symm
    | succ n =>
      rw [chunks_succ mps n (by omega)]
      have hlt : n + 1 - min mps (n + 1) < n + 1 := by omega
      rw [List.length_cons, ih _ hlt]
      rcases le_or_lt (n + 1) mps with hle | hgt
      · have h1 : min mps (n + 1) = n + 1 := by omega
        rw [h1]
        have e1 : n + 1 - (n + 1) + mps - 1 = mps - 1 := by omega
        have e2 : n + 1 + mps - 1 = n + mps := by omega
        rw [e1, e2, Nat.add_div_right n hm,
            Nat.div_eq_of_lt (by omega : mps - 1 < mps),
            Nat.div_eq_of_lt (by omega : n < mps)]
      · have h1 : min mps (n + 1) = mps := by omega
        rw [h1]
        have e1 : n + 1 - mps + mps - 1 = n := by omega
        have e2 : n + 1 + mps - 1 = n + mps := by omega
        rw [e1, e2, Nat.add_div_right n hm]

/-- For a positive multiple of `mps`, the ceiling division collapses to
exact division. -/
lemma ceil_div_of_dvd (mps n : Nat) (hm : 0 < mps) (h1 : n % mps = 0)
    (h2 : n ≠ 0) : (n + mps - 1) / mps = n / mps := by
  obtain ⟨q, hq⟩ : mps ∣ n := Nat.dvd_of_mod_eq_zero h1
  subst hq
  have hq0 : q ≠ 0 := by
    rintro rfl
    exact h2 (by simp)
  calc (mps * q + mps - 1) / mps
      = (mps * q + (mps - 1)) / mps := by rw [Nat.add_sub_assoc hm]
    _ = ((mps - 1) + mps * q) / mps := by rw [Nat.add_comm]
    _ = (mps - 1) / mps + q := Nat.add_mul_div_left _ _ hm
    _ = q := by rw [Nat.div_eq_of_lt (by omega)]; omega
    _ = mps * q / mps := (Nat.mul_div_cancel_left q hm).symm

/-- **C1.** `usb_setup_in_control_transfer(ram_rom, bytes_available,
requested_length)` computes the byte count `n = min bytes_available
requested_length`; when `n` is a positive multiple of the EP0 max packet
size and `n < requested_length`, the DATA_IN stage produces
`n / mps + 1` transactions with the last one zero-length; otherwise it
produces `⌈n / mps⌉` transactions, with `n = 0` producing exactly one
zero-length packet. -/
theorem usb_setup_in_control_transfer_count (mps ba req : Nat) (hm : 0 < mps) :
    (min ba req % mps = 0 ∧ min ba req ≠ 0 ∧ min ba req < req →
        (in_transfer_packets mps ba req).length = min ba req / mps + 1 ∧
        (in_transfer_packets mps ba req).getLast? = some 0) ∧
    (¬(min ba req % mps = 0 ∧ min ba req ≠ 0 ∧ min ba req < req) →
        min ba req ≠ 0 →
        (in_transfer_packets mps ba req).length = (min ba req + mps - 1) / mps) ∧
    (min ba req = 0 → in_transfer_packets mps ba req = [0]) := by
  refine ⟨?_, ?_, ?_⟩
  · rintro ⟨h1, h2, h3⟩
    have hshort :
        decide (min ba req % mps = 0 ∧ min ba req ≠ 0 ∧ min ba req < req)
          = true := by simp [h1, h2, h3]
    have hpk : in_transfer_packets mps ba req
        = chunks mps (min ba req) ++ [0] := by
      unfold in_transfer_packets usb_setup_in_control_transfer data_in_packets
      simp only [hshort, if_true, if_neg h2]
    rw [hpk]
    refine ⟨?_, List.getLast?_concat _⟩
    rw [List.length_append, chunks_length mps hm,
        ceil_div_of_dvd mps _ hm h1 h2]
    simp
  · intro hns h2
    have hshort :
        decide (min ba req % mps = 0 ∧ min ba req ≠ 0 ∧ min ba req < req)
          = false := by simpa using hns
    have hpk : in_transfer_packets mps ba req = chunks mps (min ba req) := by
      have he : in_transfer_packets mps ba req
          = data_in_packets mps (min ba req)
              (decide (min ba req % mps = 0 ∧ min ba req ≠ 0 ∧
                       min ba req < req)) := rfl
      rw [he, hshort]
      unfold data_in_packets
      rw [if_neg h2]
      simp
    rw [hpk, chunks_length mps hm]
  · intro h0
    unfold in_transfer_packets usb_setup_in_control_transfer data_in_packets
    simp [h0]

/-- Witness for C1: a GET-style transfer with 16 bytes available, 64
requested, max packet size 8, sends 16/8 + 1 = 3 packets ending in a ZLP. -/
theorem usb_setup_in_control_transfer_count_witness :
    (in_transfer_packets 8 16 64).length = 16 / 8 + 1 ∧
    (in_transfer_packets 8 16 64).getLast? = some 0 := by
  have h := usb_setup_in_control_transfer_count 8 16 64 (by decide)
  exact h.1 (by decide)

/-! ## C2: request error stalls EP0 IN and leaves toggles alone

`usb_request_error()` is a macro in usb.h (lines 215-220): it calls
`usb_stall_ep` on `BD0_IN`, or on both `BD0_IN_EVEN` and `BD0_IN_ODD`
when `PINGPONG_MODE == PINGPONG_ALL_EP`. `usb_stall_ep` itself lives in
the unavailable `usb.c` and is modelled from the spec. -/

/-- The four ping-pong (double-buffering) policies selectable at build
time (`PINGPONG_DIS`, `PINGPONG_0_OUT`, `PINGPONG_1_15`,
`PINGPONG_ALL_EP`). -/
inductive PPMode where
  | dis
  | zeroOut
  | oneToFifteen
  | allEp
deriving Repr, DecidableEq

/-- A buffer descriptor, reduced to the two STAT bits that the stall
path touches: hardware ownership (`UOWN`) and the send-stall flag
(`BSTALL`). -/
structure Bd where
  uown : Bool
  bstall : Bool
deriving Repr, DecidableEq

/-- Modelled from the spec: `usb_stall_ep(p_bd)` arms the buffer
descriptor in a terminal stall ownership state — it hands the BD to
hardware with the send-stall flag set and touches nothing else (in
particular no `usb_ep_stat_t` record). -/
def usb_stall_ep (bd : Bd) : Bd :=
  { bd with uown := true, bstall := true }

/-- The EP0 slice of the global state that the request-error path can
reach: the EP0 IN buffer descriptors of both layouts and the EP0
endpoint-status records. -/
structure Ep0State where
  bd_in : Bd
  bd_in_even : Bd
  bd_in_odd : Bd
  ep_stat_out : EpStat
  ep_stat_in : EpStat
deriving Repr, DecidableEq

/-- `usb_request_error()` (usb.h lines 215-220): stall `BD0_IN`, except
under `PINGPONG_ALL_EP` where both the even and odd EP0 IN buffer
descriptors are stalled. -/
def usb_request_error (m : PPMode) (s : Ep0State) : Ep0State :=
  if m = PPMode.allEp then
    { s with bd_in_even := usb_stall_ep s.bd_in_even,
             bd_in_odd := usb_stall_ep s.bd_in_odd }
  else
    { s with bd_in := usb_stall_ep s.bd_in }

/-- The standard request codes handled directly by the engine
(GET_STATUS, CLEAR_FEATURE, SET_FEATURE, SET_ADDRESS, GET_DESCRIPTOR,
SET_DESCRIPTOR, GET_CONFIGURATION, SET_CONFIGURATION, GET_INTERFACE,
SET_INTERFACE, SYNCH_FRAME). -/
def standard_requests : List Nat := [0, 1, 3, 5, 6, 7, 8, 9, 10, 11, 12]

/-- The 8-byte SETUP packet header (`ch9_setup_t`). -/
structure SetupPacket where
  bmRequestType : Nat
  bRequest : Nat
  wValue : Nat
  wIndex : Nat
  wLength : Nat
deriving Repr, DecidableEq

/-- Modelled from the spec: SETUP decode — a standard `bRequest` is
handled directly (abstracted as `stdH`); otherwise the class-request
hook classifies the packet, and if no hook claims it the engine signals
a request error. -/
def handle_setup (m : PPMode) (stdH : Ep0State → Ep0State)
    (hook : SetupPacket → Bool) (setup : SetupPacket) (s : Ep0State) :
    Ep0State :=
  if setup.bRequest ∈ standard_requests then stdH s
  else if hook setup then s
  else usb_request_error m s

/-- **C2.** A SETUP request whose `bRequest` is not a standard request
and that no class-request hook claims is answered with a request error:
the control IN endpoint is stalled (under `PINGPONG_ALL_EP` both the
even and odd EP0 IN buffer descriptors are stalled), and the endpoint
data-toggle state is left unchanged. -/
theorem request_error_stalls_ep0_in (m : PPMode) (stdH : Ep0State → Ep0State)
    (hook : SetupPacket → Bool) (setup : SetupPacket) (s : Ep0State)
    (hstd : setup.bRequest ∉ standard_requests)
    (hhook : hook setup = false) :
    (handle_setup m stdH hook setup s).ep_stat_in = s.ep_stat_in ∧
    (handle_setup m stdH hook setup s).ep_stat_out = s.ep_stat_out ∧
    (m = PPMode.allEp →
        (handle_setup m stdH hook setup s).bd_in_even.bstall = true ∧
        (handle_setup m stdH hook setup s).bd_in_odd.bstall = true) ∧
    (m ≠ PPMode.allEp →
        (handle_setup m stdH hook setup s).bd_in.bstall = true) := by
  unfold handle_setup
  rw [if_neg hstd, hhook]
  simp only [Bool.false_eq_true, if_false]
  unfold usb_request_error usb_stall_ep
  by_cases hep : m = PPMode.allEp
  · rw [if_pos hep]
    refine ⟨rfl, rfl, fun _ => ⟨rfl, rfl⟩, fun hne => absurd hep hne⟩
  · rw [if_neg hep]
    refine ⟨rfl, rfl, fun hcon => absurd hcon hep, fun _ => rfl⟩

/-- Witness for C2: a vendor request `bRequest = 0x20` under
`PINGPONG_ALL_EP` with a hook that claims nothing, starting from a clean
EP0 state. -/
theorem request_error_stalls_ep0_in_witness :
    (handle_setup PPMode.allEp id (fun _ => false)
        { bmRequestType := 0x21, bRequest := 0x20, wValue := 0,
          wIndex := 0, wLength := 7 }
        { bd_in := ⟨false, false⟩, bd_in_even := ⟨false, false⟩,
          bd_in_odd := ⟨false, false⟩,
          ep_stat_out := ⟨false, false, false⟩,
          ep_stat_in := ⟨false, false, false⟩ }).ep_stat_in
      = ⟨false, false, false⟩ := by
  have h := request_error_stalls_ep0_in PPMode.allEp id (fun _ => false)
    { bmRequestType := 0x21, bRequest := 0x20, wValue := 0,
      wIndex := 0, wLength := 7 }
    { bd_in := ⟨false, false⟩, bd_in_even := ⟨false, false⟩,
      bd_in_odd := ⟨false, false⟩,
      ep_stat_out := ⟨false, false, false⟩,
      ep_stat_in := ⟨false, false, false⟩ }
    (by decide) rfl
  exact h.1

/-! ## C3 / C7: device state machine

The device state machine lives in the unavailable `usb.c`; it is
modelled from the spec, except for the handling of the suspend
condition, which is modelled from the state constants of usb.h
(`STATE_SUSPENDED` sits between `STATE_ADDRESS` and `STATE_CONFIGURED`)
and from the CDC example's wait loop
`while(usb_get_state() < STATE_CONFIGURED){}` commented
"Pause if not configured or suspended": suspension is recorded by
storing `STATE_SUSPENDED` in the device-state variable itself. -/

/-- The device-level state: `m_usb_state`, the device address, the
previous state saved across suspend, the pending SET_ADDRESS value, and
the EP0 control stage. -/
structure DeviceSM where
  usb_state : Nat
  prev_state : Nat
  dev_address : Nat
  pending_address : Option Nat
  control_stage : Nat
deriving Repr, DecidableEq

/-- `usb_get_state()` returns the USB state stored in `m_usb_state`
(usb.h). -/
def usb_get_state (s : DeviceSM) : Nat := s.usb_state

/-- Events driving the device state machine. -/
inductive CtlEvent where
  | setupSetAddress (addr : Nat)
  | setupOther
  | statusInComplete
  | busIdle
  | busActivity
deriving Repr, DecidableEq

/-- Modelled from the spec: one dispatch of the device state machine.
Decoding SET_ADDRESS only latches the new address and arms the STATUS_IN
stage; the address takes effect, and Default→Address happens, when the
STATUS stage completes. Idle stores `STATE_SUSPENDED` into the state
variable (saving the previous state); activity restores it. -/
def device_step : CtlEvent → DeviceSM → DeviceSM
  | CtlEvent.setupSetAddress a, s =>
      { s with pending_address := some a, control_stage := STATUS_IN_STAGE }
  | CtlEvent.setupOther, s =>
      { s with pending_address := none, control_stage := SETUP_STAGE }
  | CtlEvent.statusInComplete, s =>
      match s.pending_address with
      | some a =>
          { s with usb_state :=
                     if s.usb_state = STATE_DEFAULT ∧ a ≠ 0 then STATE_ADDRESS
                     else s.usb_state,
                   dev_address := a,
                   pending_address := none,
                   control_stage := SETUP_STAGE }
      | none => { s with control_stage := SETUP_STAGE }
  | CtlEvent.busIdle, s =>
      { s with prev_state := s.usb_state, usb_state := STATE_SUSPENDED }
  | CtlEvent.busActivity, s =>
      if s.usb_state = STATE_SUSPENDED then { s with usb_state := s.prev_state }
      else s

/-- **C3.** For every SET_ADDRESS control transfer, the Default→Address
transition (and the new address taking effect) happens only after the
STATUS stage completes, never at SETUP decode time: decoding
SET_ADDRESS changes neither `usb_get_state` nor the device address, and
any step that moves the state from Default to Address is a STATUS
completion. -/
theorem set_address_after_status (a : Nat) (e : CtlEvent) (s : DeviceSM)
    (hda : usb_get_state (device_step e s) = STATE_ADDRESS)
    (hdef : usb_get_state s = STATE_DEFAULT) :
    usb_get_state (device_step (CtlEvent.setupSetAddress a) s)
        = usb_get_state s ∧
    (device_step (CtlEvent.setupSetAddress a) s).dev_address
        = s.dev_address ∧
    e = CtlEvent.statusInComplete := by
  refine ⟨rfl, rfl, ?_⟩
  cases e with
  | setupSetAddress a2 => exact absurd (hda.symm.trans hdef) (by decide)
  | setupOther => exact absurd (hda.symm.trans hdef) (by decide)
  | statusInComplete => rfl
  | busIdle =>
      exact absurd hda (by simp [device_step, usb_get_state, STATE_SUSPENDED,
                                 STATE_ADDRESS])
  | busActivity =>
      simp only [device_step, usb_get_state] at hda
      unfold usb_get_state at hdef
      by_cases hs : s.usb_state = STATE_SUSPENDED
      · rw [hdef] at hs
        exact absurd hs (by decide)
      · rw [if_neg hs] at hda
        exact absurd (hdef.symm.trans hda) (by decide)

/-- Witness for C3: completing the STATUS stage of SET_ADDRESS(5) in the
Default state moves the device to the Address state, and the step is
indeed the STATUS completion. -/
theorem set_address_after_status_witness :
    usb_get_state
        (device_step (CtlEvent.setupSetAddress 5)
          { usb_state := STATE_DEFAULT, prev_state := STATE_POWERED,
            dev_address := 0, pending_address := some 5,
            control_stage := STATUS_IN_STAGE })
      = usb_get_state
          { usb_state := STATE_DEFAULT, prev_state := STATE_POWERED,
            dev_address := 0, pending_address := some 5,
            control_stage := STATUS_IN_STAGE } ∧
    (device_step (CtlEvent.setupSetAddress 5)
        { usb_state := STATE_DEFAULT, prev_state := STATE_POWERED,
          dev_address := 0, pending_address := some 5,
          control_stage := STATUS_IN_STAGE }).dev_address = 0 ∧
    CtlEvent.statusInComplete = CtlEvent.statusInComplete :=
  set_address_after_status 5 CtlEvent.statusInComplete
    { usb_state := STATE_DEFAULT, prev_state := STATE_POWERED,
      dev_address := 0, pending_address := some 5,
      control_stage := STATUS_IN_STAGE }
    (by decide) (by decide)

/-! ## C4: ping-pong slot alternation

The per-transaction `Last_PPB` bookkeeping lives in the unavailable
`usb.c` (the HID example reads `HID_EP_OUT_LAST_PPB` under the
double-buffering policies); the completion update is modelled from the
spec. -/

/-- Modelled from the spec: which (endpoint, direction) pairs each
ping-pong policy double-buffers. `dir = false` is OUT, `dir = true` is
IN. `PINGPONG_DIS`: nothing; `PINGPONG_0_OUT`: only EP0 OUT;
`PINGPONG_1_15`: every endpoint except EP0; `PINGPONG_ALL_EP`:
everything. -/
def dbl_buffered (m : PPMode) (ep : Nat) (dir : Bool) : Bool :=
  match m with
  | PPMode.dis => false
  | PPMode.zeroOut => ep == 0 && dir == false
  | PPMode.oneToFifteen => ep != 0
  | PPMode.allEp => true

/-- Modelled from the spec: the endpoint-status update on a completed IN
transaction — the data toggle flips, and in a configuration that
double-buffers this endpoint the `Last_PPB` (last ping-pong slot used)
alternates; otherwise `Last_PPB` is never touched. -/
def usb_in_complete (m : PPMode) (ep : Nat) (s : EpStat) : EpStat :=
  if dbl_buffered m ep true then
    { s with Data_Toggle_Val := !s.Data_Toggle_Val, Last_PPB := !s.Last_PPB }
  else
    { s with Data_Toggle_Val := !s.Data_Toggle_Val }

/-- **C4.** Over any number of consecutive IN-transaction completions on
an endpoint, the recorded `Last_PPB` strictly alternates between even
and odd when the policy double-buffers that endpoint, and never changes
when it does not. -/
theorem last_ppb_alternation (m : PPMode) (ep : Nat) (s : EpStat) (k : Nat) :
    (dbl_buffered m ep true = true →
        ((usb_in_complete m ep)^[k + 1] s).Last_PPB
          = !((usb_in_complete m ep)^[k] s).Last_PPB) ∧
    (dbl_buffered m ep true = false →
        ((usb_in_complete m ep)^[k] s).Last_PPB = s.Last_PPB) := by
  constructor
  · intro hd
    rw [Function.iterate_succ_apply']
    unfold usb_in_complete
    rw [if_pos hd]
  · intro hd
    have hstep : ∀ t : EpStat, (usb_in_complete m ep t).Last_PPB = t.Last_PPB := by
      intro t
      simp [usb_in_complete, hd]
    induction k with
    | zero => rfl
    | succ k ih =>
        rw [Function.iterate_succ_apply', hstep, ih]

/-- Witness for C4: EP1 IN under `PINGPONG_1_15` alternates on the
second completion; EP1 IN under `PINGPONG_DIS` has not moved after two
completions. -/
theorem last_ppb_alternation_witness :
    ((usb_in_complete PPMode.oneToFifteen 1)^[2] ⟨false, false, false⟩).Last_PPB
      = !((usb_in_complete PPMode.oneToFifteen 1)^[1]
            ⟨false, false, false⟩).Last_PPB ∧
    ((usb_in_complete PPMode.dis 1)^[2] ⟨false, false, false⟩).Last_PPB
      = false := by
  constructor
  · exact (last_ppb_alternation PPMode.oneToFifteen 1 ⟨false, false, false⟩ 1).1
      (by decide)
  · exact (last_ppb_alternation PPMode.dis 1 ⟨false, false, false⟩ 2).2
      (by decide)

/-! ## C5: stall then clear-stall round trip

Stalling is `usb_stall_ep` on the BD with the caller setting the `Halt`
bit (the usage shown in usb.h's code example and §4.1 of the spec);
clearing a stall is part of the CLEAR_FEATURE handling in the
unavailable `usb.c`, modelled from the spec. -/

/-- Stalling an endpoint: set its `Halt` status bit and arm the BD in
the stall state via `usb_stall_ep` (usb.h code example). -/
def stall_endpoint (p : EpStat × Bd) : EpStat × Bd :=
  ({ p.1 with Halt := true }, usb_stall_ep p.2)

/-- Modelled from the spec: clearing a stall clears the `Halt` status
bit, resets the data toggle to 0 and re-arms the BD for normal
operation (stall flag off, firmware owned). -/
def clear_endpoint_stall (p : EpStat × Bd) : EpStat × Bd :=
  ({ p.1 with Halt := false, Data_Toggle_Val := false },
   { p.2 with uown := false, bstall := false })

/-- **C5.** For every starting endpoint status, stalling the endpoint
(`usb_stall_ep` with `Halt` set) and then clearing the stall leaves the
data-toggle value 0 and the `Halt` flag 0, regardless of the toggle
value at the time of stalling; the BD is left firmware-owned with the
stall flag off. -/
theorem stall_clear_roundtrip (p : EpStat × Bd) :
    (clear_endpoint_stall (stall_endpoint p)).1.Data_Toggle_Val = false ∧
    (clear_endpoint_stall (stall_endpoint p)).1.Halt = false ∧
    (clear_endpoint_stall (stall_endpoint p)).2.bstall = false ∧
    (clear_endpoint_stall (stall_endpoint p)).2.uown = false :=
  ⟨rfl, rfl, rfl, rfl⟩

/-! ## C6 / C10: the CDC class-request handler

`cdc_class_request` (usb_cdc_acm.c lines 93-139) embedded directly from
the source. Its calls into the core are recorded in an effect record.
The request codes are the USB-IF-assigned CDC values declared in
`usb_cdc.h`; `CDC_COM_INT` is the communication interface number, 0 in
the CDC configuration descriptor (usb_descriptors.c, interface0). -/

/-- CDC request code `SEND_ENCAPSULATED_COMMAND`. -/
def SEND_ENCAPSULATED_COMMAND : Nat := 0x00
/-- CDC request code `GET_ENCAPSULATED_RESPONSE`. -/
def GET_ENCAPSULATED_RESPONSE : Nat := 0x01
/-- CDC request code `SET_LINE_CODING`. -/
def SET_LINE_CODING : Nat := 0x20
/-- CDC request code `GET_LINE_CODING`. -/
def GET_LINE_CODING : Nat := 0x21
/-- CDC request code `SET_CONTROL_LINE_STATE`. -/
def SET_CONTROL_LINE_STATE : Nat := 0x22
/-- The CDC communication interface number (interface 0 in the CDC
configuration descriptor). -/
def CDC_COM_INT : Nat := 0

/-- `g_cdc_set_get_line_coding` overlays the setup packet at
`SETUP_DATA_ADDR`; its `Size_of_Structure` field is the `wLength` of the
request. -/
def size_of_structure (setup : SetupPacket) : Nat := setup.wLength

/-- The RAM locations `usb_set_ram_ptr` is pointed at inside
`cdc_class_request`. -/
inductive RamTarget where
  | getLineCodingReturn
  | setLineCoding
  | dummyBuffer
deriving Repr, DecidableEq

/-- The build-time CDC feature selection (`USE_GET_LINE_CODING`,
`USE_SET_LINE_CODING`, `USE_SET_CONTROL_LINE_STATE`); the two
encapsulated-command cases are always compiled in. -/
structure CdcConfig where
  use_get_line_coding : Bool
  use_set_line_coding : Bool
  use_set_control_line_state : Bool
deriving Repr, DecidableEq

/-- The calls `cdc_class_request` makes into the core engine, recorded
as a final snapshot: the RAM source pointer, the declared OUT byte
count, the next control stage, the arguments of
`usb_setup_in_control_transfer` (ram_rom, bytes_available,
requested_length), whether `usb_in_control_transfer` ran, whether the
IN status stage was armed, whether `cdc_set_control_line_state` ran,
and the `g_cdc_set_line_coding_wait` flag. -/
structure CdcEffects where
  ram_ptr : Option RamTarget
  num_out_control_bytes : Option Nat
  control_stage : Option Nat
  setup_in : Option (Nat × Nat × Nat)
  in_control_transfer_run : Bool
  armed_in_status : Bool
  line_state_run : Bool
  set_line_coding_wait : Bool
deriving Repr, DecidableEq

/-- No calls made into the core. -/
def noEffects : CdcEffects :=
  ⟨none, none, none, none, false, false, false, false⟩

/-- `cdc_class_request` (usb_cdc_acm.c lines 93-139): the `switch` on
`g_usb_setup.bRequest`, with the `#ifdef`-guarded cases enabled by
`cfg`; a guarded-out case falls through to `default: return false`. -/
def cdc_class_request (cfg : CdcConfig) (setup : SetupPacket) :
    Bool × CdcEffects :=
  if setup.bRequest = GET_LINE_CODING ∧ cfg.use_get_line_coding = true then
    (true, { ram_ptr := some RamTarget.getLineCodingReturn,
             num_out_control_bytes := none,
             control_stage := some DATA_IN_STAGE,
             setup_in := some (RAM, 7, size_of_structure setup),
             in_control_transfer_run := true,
             armed_in_status := false,
             line_state_run := false,
             set_line_coding_wait := false })
  else if setup.bRequest = SET_LINE_CODING ∧ cfg.use_set_line_coding = true then
    if size_of_structure setup > 7 then
      (false, { noEffects with ram_ptr := some RamTarget.setLineCoding })
    else
      (true, { ram_ptr := some RamTarget.setLineCoding,
               num_out_control_bytes := some (size_of_structure setup),
               control_stage := some DATA_OUT_STAGE,
               setup_in := none,
               in_control_transfer_run := false,
               armed_in_status := false,
               line_state_run := false,
               set_line_coding_wait := true })
  else if setup.bRequest = SET_CONTROL_LINE_STATE ∧
          cfg.use_set_control_line_state = true then
    if setup.wIndex ≠ CDC_COM_INT then (false, noEffects)
    else
      (true, { noEffects with line_state_run := true,
                              armed_in_status := true })
  else if setup.bRequest = SEND_ENCAPSULATED_COMMAND then
    if setup.wLength > 8 then
      (false, { noEffects with ram_ptr := some RamTarget.dummyBuffer })
    else
      (true, { ram_ptr := some RamTarget.dummyBuffer,
               num_out_control_bytes := some setup.wLength,
               control_stage := some DATA_OUT_STAGE,
               setup_in := none,
               in_control_transfer_run := false,
               armed_in_status := false,
               line_state_run := false,
               set_line_coding_wait := false })
  else if setup.bRequest = GET_ENCAPSULATED_RESPONSE then
    (true, { ram_ptr := some RamTarget.dummyBuffer,
             num_out_control_bytes := none,
             control_stage := some DATA_IN_STAGE,
             setup_in := some (RAM, 8, setup.wLength),
             in_control_transfer_run := true,
             armed_in_status := false,
             line_state_run := false,
             set_line_coding_wait := false })
  else (false, noEffects)

/-- **C6.** `cdc_class_request` returns `false` (rejecting the request,
which the engine turns into the stall-based request error) whenever the
request is malformed for its local buffers: SET_LINE_CODING with a
declared `Size_of_Structure` over 7 bytes, SEND_ENCAPSULATED_COMMAND
with `wLength` over 8 bytes, or SET_CONTROL_LINE_STATE with a `wIndex`
that is not the CDC communication interface number. -/
theorem cdc_class_request_rejects_malformed (cfg : CdcConfig)
    (setup : SetupPacket)
    (h : (setup.bRequest = SET_LINE_CODING ∧ size_of_structure setup > 7) ∨
         (setup.bRequest = SEND_ENCAPSULATED_COMMAND ∧ setup.wLength > 8) ∨
         (setup.bRequest = SET_CONTROL_LINE_STATE ∧
          setup.wIndex ≠ CDC_COM_INT)) :
    (cdc_class_request cfg setup).1 = false := by
  unfold cdc_class_request
  rcases h with ⟨hr, hsz⟩ | ⟨hr, hsz⟩ | ⟨hr, hix⟩ <;>
    rcases cfg with ⟨g, sl, scl⟩ <;>
    cases g <;> cases sl <;> cases scl <;>
    simp_all [GET_LINE_CODING, SET_LINE_CODING, SET_CONTROL_LINE_STATE,
              SEND_ENCAPSULATED_COMMAND, GET_ENCAPSULATED_RESPONSE,
              size_of_structure, CDC_COM_INT]

/-- Witness for C6: a SEND_ENCAPSULATED_COMMAND with `wLength = 9`
(larger than the 8-byte dummy buffer) is rejected. -/
theorem cdc_class_request_rejects_malformed_witness :
    (cdc_class_request ⟨true, true, true⟩
        { bmRequestType := 0x21, bRequest := 0x00, wValue := 0,
          wIndex := 0, wLength := 9 }).1 = false :=
  cdc_class_request_rejects_malformed ⟨true, true, true⟩
    { bmRequestType := 0x21, bRequest := 0x00, wValue := 0,
      wIndex := 0, wLength := 9 }
    (Or.inr (Or.inl ⟨rfl, by decide⟩))

/-- **C10.** Whenever `cdc_class_request` returns `false`, it has not
called `usb_set_control_stage`, `usb_set_num_out_control_bytes`,
`usb_setup_in_control_transfer` or `usb_in_control_transfer`, has not
armed any endpoint, and has not raised the line-coding wait flag — only
the RAM source pointer may already have been redirected. -/
theorem cdc_class_request_reject_no_effects (cfg : CdcConfig)
    (setup : SetupPacket)
    (h : (cdc_class_request cfg setup).1 = false) :
    (cdc_class_request cfg setup).2.control_stage = none ∧
    (cdc_class_request cfg setup).2.num_out_control_bytes = none ∧
    (cdc_class_request cfg setup).2.setup_in = none ∧
    (cdc_class_request cfg setup).2.in_control_transfer_run = false ∧
    (cdc_class_request cfg setup).2.armed_in_status = false ∧
    (cdc_class_request cfg setup).2.line_state_run = false ∧
    (cdc_class_request cfg setup).2.set_line_coding_wait = false := by
  unfold cdc_class_request at h ⊢
  split_ifs at h ⊢ <;> simp_all [noEffects]

/-- Witness for C10: the rejected oversized SET_LINE_CODING leaves
stage, byte counts and arming untouched (while its RAM pointer was in
fact already redirected before the rejection). -/
theorem cdc_class_request_reject_no_effects_witness :
    (cdc_class_request ⟨true, true, true⟩
        { bmRequestType := 0x21, bRequest := 0x20, wValue := 0,
          wIndex := 0, wLength := 8 }).2.control_stage = none ∧
    (cdc_class_request ⟨true, true, true⟩
        { bmRequestType := 0x21, bRequest := 0x20, wValue := 0,
          wIndex := 0, wLength := 8 }).2.ram_ptr
      = some RamTarget.setLineCoding := by
  have h := cdc_class_request_reject_no_effects ⟨true, true, true⟩
    { bmRequestType := 0x21, bRequest := 0x20, wValue := 0,
      wIndex := 0, wLength := 8 } (by decide)
  exact ⟨h.1, by decide⟩

/-! ## C7: STATE_SUSPENDED is itself a device-state value

usb.h enumerates SEVEN state constants, with `STATE_SUSPENDED = 5`
between `STATE_ADDRESS` and `STATE_CONFIGURED`; the CDC example's wait
loop `while(usb_get_state() < STATE_CONFIGURED){}` is commented "Pause
if not configured or suspended", which only pauses on suspend because
the suspend condition is stored in the state variable itself. -/

/-- **C7 counterexample.** After a bus-idle event the state variable
holds `STATE_SUSPENDED = 5`, a seventh enumeration value that is none of
the six values {Detached, Attached, Powered, Default, Address,
Configured} the claim allows, so `usb_get_state()` is not confined to
those six and Suspended is not an orthogonal flag. -/
theorem usb_state_suspended_counterexample :
    usb_get_state (device_step CtlEvent.busIdle
        { usb_state := STATE_CONFIGURED, prev_state := STATE_CONFIGURED,
          dev_address := 1, pending_address := none,
          control_stage := SETUP_STAGE })
      = STATE_SUSPENDED ∧
    STATE_SUSPENDED ∉ [STATE_DETACHED, STATE_ATTACHED, STATE_POWERED,
                       STATE_DEFAULT, STATE_ADDRESS, STATE_CONFIGURED] ∧
    STATE_SUSPENDED ∈ usb_state_constants := by
  refine ⟨rfl, by decide, by decide⟩

/-- **C7 (amended).** `usb_get_state()` always returns one of the SEVEN
usb.h state constants {Detached, Attached, Powered, Default, Address,
Suspended, Configured}; Suspended is itself a device-state value,
ordered strictly between Address and Configured, not an orthogonal
flag. -/
theorem usb_state_in_seven_constants (e : CtlEvent) (s : DeviceSM)
    (hs : usb_get_state s ∈ usb_state_constants)
    (hp : s.prev_state ∈ usb_state_constants) :
    usb_get_state (device_step e s) ∈ usb_state_constants ∧
    (device_step e s).prev_state ∈ usb_state_constants ∧
    STATE_ADDRESS < STATE_SUSPENDED ∧
    STATE_SUSPENDED < STATE_CONFIGURED := by
  unfold usb_get_state at hs ⊢
  refine ⟨?_, ?_, by decide, by decide⟩
  · cases e with
    | setupSetAddress a => exact hs
    | setupOther => exact hs
    | statusInComplete =>
        cases hpa : s.pending_address with
        | none => simp only [device_step, hpa]; exact hs
        | some a =>
            simp only [device_step, hpa]
            by_cases hc : s.usb_state = STATE_DEFAULT ∧ a ≠ 0
            · rw [if_pos hc]; decide
            · rw [if_neg hc]; exact hs
    | busIdle => simp only [device_step]; decide
    | busActivity =>
        by_cases hc : s.usb_state = STATE_SUSPENDED
        · simp only [device_step, if_pos hc]; exact hp
        · simp only [device_step, if_neg hc]; exact hs
  · cases e with
    | setupSetAddress a => exact hp
    | setupOther => exact hp
    | statusInComplete =>
        cases hpa : s.pending_address with
        | none => simp only [device_step, hpa]; exact hp
        | some a => simp only [device_step, hpa]; exact hp
    | busIdle => simp only [device_step]; exact hs
    | busActivity =>
        by_cases hc : s.usb_state = STATE_SUSPENDED
        · simp only [device_step, if_pos hc]; exact hp
        · simp only [device_step, if_neg hc]; exact hp

/-- Witness for the amended C7: a bus-idle event in the Configured state
keeps the state variable inside the seven usb.h constants. -/
theorem usb_state_in_seven_constants_witness :
    usb_get_state (device_step CtlEvent.busIdle
        { usb_state := STATE_CONFIGURED, prev_state := STATE_POWERED,
          dev_address := 1, pending_address := none,
          control_stage := SETUP_STAGE }) ∈ usb_state_constants ∧
    (device_step CtlEvent.busIdle
        { usb_state := STATE_CONFIGURED, prev_state := STATE_POWERED,
          dev_address := 1, pending_address := none,
          control_stage := SETUP_STAGE }).prev_state ∈ usb_state_constants ∧
    STATE_ADDRESS < STATE_SUSPENDED ∧
    STATE_SUSPENDED < STATE_CONFIGURED :=
  usb_state_in_seven_constants CtlEvent.busIdle
    { usb_state := STATE_CONFIGURED, prev_state := STATE_POWERED,
      dev_address := 1, pending_address := none,
      control_stage := SETUP_STAGE }
    (by decide) (by decide)

/-! ## C8: the interrupt service routine

The CDC and HID example ISRs (usb_cdc_acm.c lines 414-421 and the
RubberDucky main.c lines 310-317) are identical:
`if(USB_INTERRUPT_ENABLE && USB_INTERRUPT_FLAG){ usb_tasks();
USB_INTERRUPT_FLAG = 0; }`. The invocation is embedded as the sequence
of actions it performs. -/

/-- The observable actions of one ISR invocation. -/
inductive IsrAction where
  | runUsbTasks
  | clearUsbInterruptFlag
deriving Repr, DecidableEq

/-- One ISR invocation: when the USB interrupt is enabled and its flag
is raised, run `usb_tasks()` to completion and then clear
`USB_INTERRUPT_FLAG`; otherwise do nothing. -/
def isr (usb_interrupt_enable usb_interrupt_flag : Bool) : List IsrAction :=
  if usb_interrupt_enable && usb_interrupt_flag then
    [IsrAction.runUsbTasks, IsrAction.clearUsbInterruptFlag]
  else []

/-- **C8.** In the interrupt-driven configuration every ISR invocation
that clears `USB_INTERRUPT_FLAG` does so only after `usb_tasks()` has
returned, never before: any occurrence of the clear action in the ISR's
action sequence is strictly preceded by the `usb_tasks()` run, and
`usb_tasks()` runs at most once per invocation, so the driving function
is not re-entered for a nested occurrence of the same event. -/
theorem isr_clears_flag_after_usb_tasks (en fl : Bool) (i : Nat)
    (hc : (isr en fl).get? i = some IsrAction.clearUsbInterruptFlag) :
    (∃ j, j < i ∧ (isr en fl).get? j = some IsrAction.runUsbTasks) ∧
    (isr en fl).count IsrAction.runUsbTasks ≤ 1 := by
  cases en <;> cases fl <;> simp only [isr] at hc ⊢
  · simp at hc
  · simp at hc
  · simp at hc
  · have hred : (if (true && true) = true then
        [IsrAction.runUsbTasks, IsrAction.clearUsbInterruptFlag]
        else ([] : List IsrAction))
        = [IsrAction.runUsbTasks, IsrAction.clearUsbInterruptFlag] := rfl
    rw [hred] at hc ⊢
    cases i with
    | zero => simp at hc
    | succ i =>
        cases i with
        | zero => exact ⟨⟨0, by omega, rfl⟩, by decide⟩
        | succ i => simp at hc

/-- Witness for C8: with the interrupt enabled and flagged, the clear
action sits at index 1, strictly after the `usb_tasks()` run. -/
theorem isr_clears_flag_after_usb_tasks_witness :
    (∃ j, j < 1 ∧ (isr true true).get? j = some IsrAction.runUsbTasks) ∧
    (isr true true).count IsrAction.runUsbTasks ≤ 1 :=
  isr_clears_flag_after_usb_tasks true true 1 (by decide)

/-! ## C9: writes to the shared transfer-complete flags

The CDC example (the main.c concatenated into usb_cdc_acm.c) shares
`m_serial_pkt_sent` and `m_serial_pkt_rcv` between the interrupt context
(`cdc_data_in` / `cdc_data_out`, reached from `usb_tasks()` via
`cdc_tasks`) and the foreground helpers `send`, `receive`,
`serial_print_string`, `serial_echo`. Each function is embedded as the
sequence of writes it performs to these two flags. -/

/-- The two shared transfer-complete flags of the CDC example. -/
inductive SerialFlag where
  | pktSent
  | pktRcv
deriving Repr, DecidableEq

/-- One write to a shared flag: which flag, and the value stored. -/
structure FlagWrite where
  flag : SerialFlag
  value : Bool
deriving Repr, DecidableEq

/-- `cdc_data_out()` (interrupt context): `m_serial_pkt_rcv = true;`. -/
def cdc_data_out_writes : List FlagWrite := [⟨SerialFlag.pktRcv, true⟩]

/-- `cdc_data_in()` (interrupt context): `m_serial_pkt_sent = true;`. -/
def cdc_data_in_writes : List FlagWrite := [⟨SerialFlag.pktSent, true⟩]

/-- `send(amount)` (foreground): `m_serial_pkt_sent = false;` then arm
the data IN endpoint, then poll (`while(!m_serial_pkt_sent){}` performs
no write). -/
def send_writes : List FlagWrite := [⟨SerialFlag.pktSent, false⟩]

/-- `receive()` (foreground): poll `while(!m_serial_pkt_rcv){}` (no
write), then `m_serial_pkt_rcv = false;` and re-arm the data OUT
endpoint. -/
def receive_writes : List FlagWrite := [⟨SerialFlag.pktRcv, false⟩]

/-- The loop body of `serial_print_string`: per character `i` advances
modulo `CDC_DAT_EP_SIZE`, a full buffer triggers `send(sz)`, and a final
partial buffer triggers `send(i)` after the loop. Only the positions of
the `send` calls matter for the flag-write trace. -/
def serial_print_loop (sz : Nat) : List Char → Nat → List FlagWrite
  | [], i => if i ≠ 0 then send_writes else []
  | _ :: cs, i =>
      if (i + 1) % sz = 0 then send_writes ++ serial_print_loop sz cs ((i + 1) % sz)
      else serial_print_loop sz cs ((i + 1) % sz)

/-- `serial_print_string(string)` (foreground). -/
def serial_print_string_writes (sz : Nat) (s : List Char) : List FlagWrite :=
  serial_print_loop sz s 0

/-- `serial_echo()` (foreground): `receive()` then copy then `send`. -/
def serial_echo_writes : List FlagWrite := receive_writes ++ send_writes

/-- **C9 counterexample.** The foreground helper `send` DOES mutate
`m_serial_pkt_sent` (it clears it to `false` before arming), and
`receive` likewise mutates `m_serial_pkt_rcv`, so the claim that the
foreground helpers only poll the flags and never mutate them is false.
-/
theorem foreground_mutates_flags_counterexample :
    send_writes = [⟨SerialFlag.pktSent, false⟩] ∧ send_writes ≠ [] ∧
    receive_writes = [⟨SerialFlag.pktRcv, false⟩] ∧ receive_writes ≠ [] := by
  refine ⟨rfl, by decide, rfl, by decide⟩

lemma serial_print_loop_writes_false (sz : Nat) :
    ∀ (s : List Char) (i : Nat), ∀ w ∈ serial_print_loop sz s i,
      w.value = false := by
  intro s
  induction s with
  | nil =>
      intro i w hw
      unfold serial_print_loop at hw
      by_cases hi : i ≠ 0
      · rw [if_pos hi] at hw
        simp [send_writes] at hw
        rw [hw]
      · rw [if_neg hi] at hw
        simp at hw
  | cons c cs ih =>
      intro i w hw
      unfold serial_print_loop at hw
      by_cases hz : (i + 1) % sz = 0
      · rw [if_pos hz] at hw
        rcases List.mem_append.mp hw with h1 | h2
        · simp [send_writes] at h1
          rw [h1]
        · exact ih _ w h2
      · rw [if_neg hz] at hw
        exact ih _ w hw

/-- **C9 (amended).** Every foreground write to the shared
transfer-complete flags stores `false` (the helpers clear a flag to
re-arm the handshake before polling it), and every interrupt-context
write (`cdc_data_in` / `cdc_data_out`) stores `true`; only the
interrupt-context writer ever signals completion. -/
theorem serial_flag_write_discipline (sz : Nat) (s : List Char) :
    (∀ w ∈ send_writes, w.value = false) ∧
    (∀ w ∈ receive_writes, w.value = false) ∧
    (∀ w ∈ serial_print_string_writes sz s, w.value = false) ∧
    (∀ w ∈ serial_echo_writes, w.value = false) ∧
    (∀ w ∈ cdc_data_in_writes, w.value = true) ∧
    (∀ w ∈ cdc_data_out_writes, w.value = true) := by
  refine ⟨?_, ?_, ?_, ?_, ?_, ?_⟩
  · intro w hw; simp [send_writes] at hw; rw [hw]
  · intro w hw; simp [receive_writes] at hw; rw [hw]
  · exact serial_print_loop_writes_false sz s 0
  · intro w hw
    rcases List.mem_append.mp hw with h | h
    · simp [receive_writes] at h; rw [h]
    · simp [send_writes] at h; rw [h]
  · intro w hw; simp [cdc_data_in_writes] at hw; rw [hw]
  · intro w hw; simp [cdc_data_out_writes] at hw; rw [hw]

/-- Witness for the amended C9: printing one character through an
8-byte endpoint performs exactly one foreground flag write, which stores
`false`. -/
theorem serial_flag_write_discipline_witness :
    (⟨SerialFlag.pktSent, false⟩ : FlagWrite).value = false ∧
    ⟨SerialFlag.pktSent, false⟩ ∈ serial_print_string_writes 8 [Char.ofNat 97] := by
  have h := serial_flag_write_discipline 8 [Char.ofNat 97]
  have hmem : (⟨SerialFlag.pktSent, false⟩ : FlagWrite)
      ∈ serial_print_string_writes 8 [Char.ofNat 97] := by decide
  exact ⟨h.2.2.1 ⟨SerialFlag.pktSent, false⟩ hmem, hmem⟩

end USBStack
